import Mathlib

set_option autoImplicit false

/-!
Verification of the authenticated, resilient API access layer of the
extend-challenge-demo-app repository.

The development shallowly embeds the Go sources:
  * internal/auth/token.go      — Token value object (IsExpired, ExpiresIn)
  * internal/auth/client.go     — ClientAuthProvider (client-credentials grant)
  * internal/tui/app.go         — PasswordAuthProvider (password grant)
  * internal/auth/provider.go   — MockAuthProvider and generateMockJWT
  * internal/api/client.go      — HTTPAPIClient.doRequest retry loop

Go pointers become Option, Go time.Time instants become Int nanoseconds
since the epoch, network I/O becomes an explicit environment record whose
fields give the outcome of each outbound call, and the provider's mutable
currentToken field becomes explicit state passing.
-/

namespace ChallengeDemo

/-- Instants and durations are nanoseconds, matching Go time.Time/Duration. -/
abbrev Instant := Int

def nsPerSecond : Int := 1000000000

/-- 5 * time.Minute in nanoseconds (the freshness margin in GetToken). -/
def fiveMinutes : Int := 5 * 60 * nsPerSecond

/-- internal/auth/token.go: the Token struct. -/
structure Token where
  accessToken : String
  tokenType : String
  expiresAt : Instant
  refreshToken : String
deriving DecidableEq

/-- internal/auth/token.go, Token.IsExpired: a nil receiver is expired;
otherwise `time.Now().After(t.ExpiresAt)`, i.e. now strictly after expiry. -/
def isExpiredP (t : Option Token) (now : Instant) : Bool :=
  match t with
  | none => true
  | some tok => decide (tok.expiresAt < now)

/-- internal/auth/token.go, Token.ExpiresIn: 0 for nil, else `time.Until(t.ExpiresAt)`. -/
def expiresInP (t : Option Token) (now : Instant) : Int :=
  match t with
  | none => 0
  | some tok => tok.expiresAt - now

/-- internal/auth/client.go, ClientAuthProvider.IsTokenValid (the password
provider's copy in internal/tui/app.go is identical): false for nil,
otherwise the negation of IsExpired. -/
def isTokenValid (t : Option Token) (now : Instant) : Bool :=
  match t with
  | none => false
  | some tok => ! isExpiredP (some tok) now

/-! ## Identity-provider responses

Go decodes the OAuth token response JSON into a struct whose fields default
to zero values when the corresponding JSON key is absent.  We keep the raw
(optional-field) shape and the Go zero-default decoding explicit. -/

/-- Raw token-response JSON: each field may be absent. -/
structure TokenRespRaw where
  accessToken : Option String
  tokenType : Option String
  expiresIn : Option Int
  refreshToken : Option String
deriving DecidableEq

/-- The struct ClientAuthProvider decodes into: Go fills absent JSON keys
with zero values ("" and 0). -/
structure TokenResp where
  accessToken : String
  tokenType : String
  expiresIn : Int
  refreshToken : String
deriving DecidableEq

/-- encoding/json decoding of a token response into the Go struct:
absent keys become zero values. -/
def decodeTokenResp (r : TokenRespRaw) : TokenResp :=
  { accessToken := r.accessToken.getD ""
    tokenType := r.tokenType.getD ""
    expiresIn := r.expiresIn.getD 0
    refreshToken := r.refreshToken.getD "" }

/-- Outcome of one HTTP call made with net/http: either a transport-level
error or a response with a status code and a body.  The body is given
already split into "JSON decodes into a raw token response" or
"JSON decoding fails". -/
inductive HTTPOutcome where
  | transportError (msg : String)
  | response (status : Nat) (body : Except String TokenRespRaw)

/-- Environment for one ClientAuthProvider operation: the outcome the
network would give to the client-credentials request and to the
refresh-token request, and the current wall-clock instant. -/
structure ClientNet where
  authCall : HTTPOutcome
  refreshCall : HTTPOutcome
  now : Instant

/-- internal/auth/client.go, ClientAuthProvider.Authenticate.
Returns the (result, new currentToken state) pair; on any failure the
stored currentToken is left unchanged. -/
def clientAuthenticate (env : ClientNet) (cur : Option Token) :
    Except String Token × Option Token :=
  match env.authCall with
  | .transportError e => (.error ("request failed: " ++ e), cur)
  | .response status body =>
    if status ≠ 200 then
      (.error ("authentication failed with status " ++ toString status), cur)
    else
      match body with
      | .error e => (.error ("decode response: " ++ e), cur)
      | .ok raw =>
        let r := decodeTokenResp raw
        let token : Token :=
          { accessToken := r.accessToken
            tokenType := r.tokenType
            expiresAt := env.now + r.expiresIn * nsPerSecond
            refreshToken := r.refreshToken }
        (.ok token, some token)

/-- internal/auth/client.go, ClientAuthProvider.RefreshToken, for a non-nil
token argument.  Empty refresh token falls back to Authenticate; a non-OK
status falls back to Authenticate; a transport error is surfaced. -/
def clientRefreshToken (env : ClientNet) (cur : Option Token) (token : Token) :
    Except String Token × Option Token :=
  if token.refreshToken = "" then
    clientAuthenticate env cur
  else
    match env.refreshCall with
    | .transportError e => (.error ("refresh request failed: " ++ e), cur)
    | .response status body =>
      if status ≠ 200 then
        clientAuthenticate env cur
      else
        match body with
        | .error e => (.error ("decode refresh response: " ++ e), cur)
        | .ok raw =>
          let r := decodeTokenResp raw
          let newToken : Token :=
            { accessToken := r.accessToken
              tokenType := r.tokenType
              expiresAt := env.now + r.expiresIn * nsPerSecond
              refreshToken := r.refreshToken }
          (.ok newToken, some newToken)

/-- ClientAuthProvider.RefreshToken as called on a Go pointer: the function
body immediately reads `token.RefreshToken`, so a nil argument is a nil
pointer dereference, modelled as `none`. -/
def clientRefreshTokenP (env : ClientNet) (cur : Option Token)
    (token : Option Token) : Option (Except String Token × Option Token) :=
  match token with
  | none => none
  | some t => some (clientRefreshToken env cur t)

/-- Result of GetToken: the value returned to the caller, the currentToken
state at return time, and whether a background refresh goroutine was
spawned (its own outcome is invisible to the caller). -/
structure GetTokenOut where
  result : Except String Token
  state : Option Token
  backgroundRefresh : Bool

/-- internal/auth/client.go, ClientAuthProvider.GetToken.  `none` models a
nil pointer dereference inside the call (via clientRefreshTokenP). -/
def clientGetToken (env : ClientNet) (cur : Option Token) : Option GetTokenOut :=
  match cur with
  | none =>
    let (r, st) := clientAuthenticate env cur
    some ⟨r, st, false⟩
  | some t =>
    if isExpiredP (some t) env.now then
      match clientRefreshTokenP env cur (some t) with
      | none => none
      | some (r, st) => some ⟨r, st, false⟩
    else if expiresInP (some t) env.now < fiveMinutes then
      some ⟨.ok t, cur, true⟩
    else
      some ⟨.ok t, cur, false⟩

/-! ## Password provider (internal/tui/app.go)

The password provider talks to the IAM endpoint via the AccelByte SDK call
TokenGrantV3Short, which returns an (ok, err) pair; `ok` may be nil, and
its GetPayload() may be nil.  The payload's AccessToken/TokenType/ExpiresIn
fields are pointers (optional); RefreshToken is a plain string. -/

/-- Payload of a successful TokenGrantV3Short call. -/
structure PasswordResp where
  accessToken : Option String
  tokenType : Option String
  expiresIn : Option Int
  refreshToken : String
deriving DecidableEq

/-- Outcome of one TokenGrantV3Short SDK call: an error, or an `ok` object
(outer Option: the ok result itself may be nil; inner Option: GetPayload
may be nil). -/
inductive SDKOutcome where
  | sdkError (msg : String)
  | success (payload : Option (Option PasswordResp))

/-- Environment for one PasswordAuthProvider operation. -/
structure PasswordNet where
  authCall : SDKOutcome
  refreshCall : SDKOutcome
  now : Instant

/-- internal/tui/app.go, PasswordAuthProvider.Authenticate. -/
def passwordAuthenticate (env : PasswordNet) (cur : Option Token) :
    Except String Token × Option Token :=
  match env.authCall with
  | .sdkError e => (.error ("password grant failed: " ++ e), cur)
  | .success none => (.error "empty SDK result", cur)
  | .success (some none) => (.error "empty token response", cur)
  | .success (some (some resp)) =>
    match resp.accessToken, resp.tokenType, resp.expiresIn with
    | some a, some ty, some ei =>
      let token : Token :=
        { accessToken := a
          tokenType := ty
          expiresAt := env.now + ei * nsPerSecond
          refreshToken := resp.refreshToken }
      (.ok token, some token)
    | _, _, _ => (.error "invalid token response: missing required fields", cur)

/-- internal/tui/app.go, PasswordAuthProvider.RefreshToken, for a non-nil
token argument.  Empty refresh token falls back to Authenticate; an SDK
call error falls back to Authenticate; nil/invalid payloads surface errors. -/
def passwordRefreshToken (env : PasswordNet) (cur : Option Token) (token : Token) :
    Except String Token × Option Token :=
  if token.refreshToken = "" then
    passwordAuthenticate env cur
  else
    match env.refreshCall with
    | .sdkError _ => passwordAuthenticate env cur
    | .success none => (.error "empty SDK result", cur)
    | .success (some none) => (.error "empty token response", cur)
    | .success (some (some resp)) =>
      match resp.accessToken, resp.tokenType, resp.expiresIn with
      | some a, some ty, some ei =>
        let newToken : Token :=
          { accessToken := a
            tokenType := ty
            expiresAt := env.now + ei * nsPerSecond
            refreshToken := resp.refreshToken }
        (.ok newToken, some newToken)
      | _, _, _ => (.error "invalid token response: missing required fields", cur)

/-- PasswordAuthProvider.RefreshToken on a Go pointer; nil dereferences. -/
def passwordRefreshTokenP (env : PasswordNet) (cur : Option Token)
    (token : Option Token) : Option (Except String Token × Option Token) :=
  match token with
  | none => none
  | some t => some (passwordRefreshToken env cur t)

/-- internal/tui/app.go, PasswordAuthProvider.GetToken (same four-branch
shape as the client provider's copy). -/
def passwordGetToken (env : PasswordNet) (cur : Option Token) : Option GetTokenOut :=
  match cur with
  | none =>
    let (r, st) := passwordAuthenticate env cur
    some ⟨r, st, false⟩
  | some t =>
    if isExpiredP (some t) env.now then
      match passwordRefreshTokenP env cur (some t) with
      | none => none
      | some (r, st) => some ⟨r, st, false⟩
    else if expiresInP (some t) env.now < fiveMinutes then
      some ⟨.ok t, cur, true⟩
    else
      some ⟨.ok t, cur, false⟩

/-! ## Resilient request executor (internal/api/client.go, doRequest) -/

/-- Outcome of one httpClient.Do attempt. -/
inductive AttemptOutcome where
  | transportError (msg : String)
  | response (status : Nat) (body : String)
deriving DecidableEq

/-- Classification used by the retry loop: transport errors and HTTP
status ≥ 500 are retryable. -/
def isRetryable : AttemptOutcome → Bool
  | .transportError _ => true
  | .response s _ => decide (s ≥ 500)

/-- The error message an attempt contributes as `lastErr`. -/
def causeMsg : AttemptOutcome → String
  | .transportError e => e
  | .response s _ => "server error: status " ++ toString s

def maxRetries : Nat := 3

/-- The retry loop of doRequest.  `f n` is the outcome of attempt `n`
(0-based); `total` is the constant maxRetries used in the attempt index
and the final error message; `remaining` counts attempts left; `lastErr`
is the last transient cause.  Returns the result together with the list of
backoff sleeps (in seconds) performed before each attempt actually made,
so the list's length is the number of attempts. -/
def retryLoop (f : Nat → AttemptOutcome) (total : Nat) :
    Nat → String → Except String (Nat × String) × List Nat
  | 0, lastErr =>
    (.error ("request failed after " ++ toString total ++ " attempts: " ++ lastErr), [])
  | r + 1, _lastErr =>
    let attempt := total - (r + 1)
    let sleepSec := if attempt = 0 then 0 else 2 ^ (attempt - 1)
    match f attempt with
    | .transportError e =>
      let out := retryLoop f total r e
      (out.1, sleepSec :: out.2)
    | .response status body =>
      if status ≥ 500 then
        let out := retryLoop f total r ("server error: status " ++ toString status)
        (out.1, sleepSec :: out.2)
      else
        (.ok (status, body), [sleepSec])

/-- Environment for one doRequest call: the body serialization outcome
(none = no body supplied), the auth provider's GetToken outcome, and the
per-attempt network outcomes. -/
structure RequestEnv where
  marshalBody : Option (Except String String)
  tokenResult : Except String Token
  attempts : Nat → AttemptOutcome

/-- internal/api/client.go, HTTPAPIClient.doRequest: serialize the body
(fail immediately on error), obtain a token (fail immediately on error),
then run the retry loop. -/
def doRequest (env : RequestEnv) : Except String (Nat × String) × List Nat :=
  match env.marshalBody with
  | some (.error e) => (.error ("marshal request body: " ++ e), [])
  | _ =>
    match env.tokenResult with
    | .error e => (.error ("get auth token: " ++ e), [])
    | .ok _ => retryLoop env.attempts maxRetries maxRetries ""

/-! ## Sample concrete values used by witnesses -/

/-- A sample token carrying a refresh credential, expiring at instant `e`. -/
def sampleToken (e : Instant) : Token :=
  { accessToken := "acc", tokenType := "Bearer", expiresAt := e, refreshToken := "ref" }

/-- A raw token response with all fields present. -/
def sampleRaw : TokenRespRaw :=
  { accessToken := some "acc2", tokenType := some "Bearer"
    expiresIn := some 3600, refreshToken := some "ref2" }

/-- A client-provider environment whose auth call succeeds and whose
refresh call also succeeds, at instant 0. -/
def sampleClientNet : ClientNet :=
  { authCall := .response 200 (.ok sampleRaw)
    refreshCall := .response 200 (.ok sampleRaw)
    now := 0 }

/-- A password-provider payload with all fields present. -/
def samplePResp : PasswordResp :=
  { accessToken := some "acc3", tokenType := some "Bearer"
    expiresIn := some 3600, refreshToken := "ref3" }

/-- A password-provider environment whose calls succeed, at instant 0. -/
def samplePasswordNet : PasswordNet :=
  { authCall := .success (some (some samplePResp))
    refreshCall := .success (some (some samplePResp))
    now := 0 }

/-- A client environment whose refresh call dies at the transport level
while the authentication call would succeed. -/
def refreshDownNet : ClientNet :=
  { authCall := .response 200 (.ok sampleRaw)
    refreshCall := .transportError "connection refused"
    now := 0 }

/-- A client environment returning HTTP 200 with a token-response JSON
that is missing every field. -/
def emptyFieldsNet : ClientNet :=
  { authCall := .response 200 (.ok { accessToken := none, tokenType := none
                                     expiresIn := none, refreshToken := none })
    refreshCall := .transportError "unused"
    now := 0 }

/-! ## C7 — the mock JWT generator (internal/auth/provider.go)

generateMockJWT builds `headerB64 ++ "." ++ payloadB64 ++ ".mock-signature"`
where headerB64/payloadB64 are base64.RawURLEncoding encodings of the
json.Marshal output of the header map {"alg","typ"} and the payload map
{"sub","namespace","iat","exp"}.  Go strings are modelled as lists of
Unicode code points (List Nat), byte strings as lists of byte values.
json.Marshal sorts map keys alphabetically (exp, iat, namespace, sub) and
escapes string values with HTML escaping enabled; the JSON text is then
UTF-8 encoded and base64url encoded without padding. -/

/-- ASCII code of the lowercase hex digit for n < 16 (encoding/json's hex
table "0123456789abcdef"). -/
def hexDig (n : Nat) : Nat :=
  if n < 10 then 48 + n else 87 + n

/-- encoding/json escaping (escapeHTML = true) of one rune, as the list of
code points the encoder appends for it.  Safe ASCII (printable, not
quote/backslash/</>/&) passes through; quote, backslash, newline, carriage
return and tab get two-character escapes; other unsafe ASCII gets \u00XX;
U+2028/U+2029 get \u202X; all other runes pass through. -/
def escRune (c : Nat) : List Nat :=
  if c < 0x80 then
    if 0x20 ≤ c ∧ c ≠ 0x22 ∧ c ≠ 0x5C ∧ c ≠ 0x3C ∧ c ≠ 0x3E ∧ c ≠ 0x26 then
      [c]
    else if c = 0x22 ∨ c = 0x5C then [0x5C, c]
    else if c = 0x0A then [0x5C, 0x6E]
    else if c = 0x0D then [0x5C, 0x72]
    else if c = 0x09 then [0x5C, 0x74]
    else [0x5C, 0x75, 0x30, 0x30, hexDig (c / 16), hexDig (c % 16)]
  else if c = 0x2028 ∨ c = 0x2029 then
    [0x5C, 0x75, 0x32, 0x30, 0x32, hexDig (c % 16)]
  else [c]

/-- encoding/json escaping of a whole string (rune list). -/
def escape : List Nat → List Nat
  | [] => []
  | c :: cs => escRune c ++ escape cs

/-- Decimal digits (ASCII code points) of a Nat, accumulator form. -/
def toDecAux : Nat → List Nat → List Nat
  | n, acc =>
    if n < 10 then (48 + n) :: acc
    else toDecAux (n / 10) ((48 + n % 10) :: acc)
termination_by n _ => n
decreasing_by omega

/-- json.Marshal rendering of a non-negative integer. -/
def toDec (n : Nat) : List Nat := toDecAux n []

/-- UTF-8 encoding of one code point (byte values). -/
def utf8EncodeChar (c : Nat) : List Nat :=
  if c < 0x80 then [c]
  else if c < 0x800 then [0xC0 + c / 64, 0x80 + c % 64]
  else if c < 0x10000 then
    [0xE0 + c / 4096, 0x80 + c / 64 % 64, 0x80 + c % 64]
  else
    [0xF0 + c / 262144, 0x80 + c / 4096 % 64, 0x80 + c / 64 % 64, 0x80 + c % 64]

/-- UTF-8 encoding of a code-point list. -/
def utf8Encode : List Nat → List Nat
  | [] => []
  | c :: cs => utf8EncodeChar c ++ utf8Encode cs

/-- base64url alphabet (A-Z a-z 0-9 - _), as code points. -/
def b64char (n : Nat) : Nat :=
  if n < 26 then 65 + n
  else if n < 52 then 97 + (n - 26)
  else if n < 62 then 48 + (n - 52)
  else if n = 62 then 45
  else 95

/-- base64.RawURLEncoding (unpadded) of a byte list, as code points. -/
def b64encode : List Nat → List Nat
  | b0 :: b1 :: b2 :: rest =>
    b64char (b0 / 4) :: b64char (b0 % 4 * 16 + b1 / 16) ::
      b64char (b1 % 16 * 4 + b2 / 64) :: b64char (b2 % 64) :: b64encode rest
  | [b0, b1] => [b64char (b0 / 4), b64char (b0 % 4 * 16 + b1 / 16), b64char (b1 % 16 * 4)]
  | [b0] => [b64char (b0 / 4), b64char (b0 % 4 * 16)]
  | [] => []

/-- Code points of the marshalled header {"alg":"HS256","typ":"JWT"}
(keys sorted by json.Marshal). -/
def headerRunes : List Nat :=
  [0x7B, 0x22, 0x61, 0x6C, 0x67, 0x22, 0x3A, 0x22, 0x48, 0x53, 0x32, 0x35, 0x36,
   0x22, 0x2C, 0x22, 0x74, 0x79, 0x70, 0x22, 0x3A, 0x22, 0x4A, 0x57, 0x54, 0x22, 0x7D]

/-- Code points of the literal `\x7b"exp":` opening the payload JSON. -/
def pfxExp : List Nat := [0x7B, 0x22, 0x65, 0x78, 0x70, 0x22, 0x3A]

/-- Code points of the literal `,"iat":`. -/
def pfxIat : List Nat := [0x2C, 0x22, 0x69, 0x61, 0x74, 0x22, 0x3A]

/-- Code points of the literal `,"namespace":"`. -/
def pfxNamespace : List Nat :=
  [0x2C, 0x22, 0x6E, 0x61, 0x6D, 0x65, 0x73, 0x70, 0x61, 0x63, 0x65, 0x22, 0x3A, 0x22]

/-- Code points of the literal `,"sub":"`. -/
def pfxSubKey : List Nat := [0x2C, 0x22, 0x73, 0x75, 0x62, 0x22, 0x3A, 0x22]

/-- Code points of json.Marshal of the payload map
{"sub": userID, "namespace": namespace, "iat": iat, "exp": exp}:
keys are sorted (exp, iat, namespace, sub), the two integers print in
decimal, the two strings are escaped and quoted. -/
def payloadRunes (u ns : List Nat) (iat exp : Nat) : List Nat :=
  pfxExp ++ toDec exp ++ pfxIat ++ toDec iat ++
    pfxNamespace ++ escape ns ++ [0x22] ++ pfxSubKey ++ escape u ++ [0x22, 0x7D]

/-- Code points of ".mock-signature" (the constant tail of the mock JWT). -/
def mockSigSuffix : List Nat :=
  [0x2E, 0x6D, 0x6F, 0x63, 0x6B, 0x2D, 0x73, 0x69, 0x67, 0x6E, 0x61, 0x74,
   0x75, 0x72, 0x65]

/-- internal/auth/provider.go, generateMockJWT: both times read inside the
function are passed explicitly (iat, and exp = one hour later). -/
def generateMockJWT (u ns : List Nat) (iat exp : Nat) : List Nat :=
  b64encode (utf8Encode headerRunes) ++ [0x2E] ++
    b64encode (utf8Encode (payloadRunes u ns iat exp)) ++ mockSigSuffix

/-! ### Decoders used to invert the pipeline -/

/-- Value of a lowercase-hex-digit code point. -/
def hexVal (c : Nat) : Option Nat :=
  if 48 ≤ c ∧ c ≤ 57 then some (c - 48)
  else if 97 ≤ c ∧ c ≤ 102 then some (c - 87)
  else none

/-- Inverse of the two-character JSON escapes. -/
def simpleEsc (c : Nat) : Option Nat :=
  if c = 0x22 then some 0x22
  else if c = 0x5C then some 0x5C
  else if c = 0x6E then some 0x0A
  else if c = 0x72 then some 0x0D
  else if c = 0x74 then some 0x09
  else none

/-- Scan a JSON string body up to its closing (unescaped) quote, undoing
the escaping; returns the decoded runes and the remainder after the
quote. -/
def escScan : List Nat → Option (List Nat × List Nat)
  | [] => none
  | c :: t =>
    if c = 0x22 then some ([], t)
    else if c ≠ 0x5C then
      (escScan t).map (fun p => (c :: p.1, p.2))
    else
      match t with
      | [] => none
      | e :: t2 =>
        if e = 0x75 then
          match t2 with
          | h1 :: h2 :: h3 :: h4 :: t4 =>
            match hexVal h1, hexVal h2, hexVal h3, hexVal h4 with
            | some a, some b, some c2, some d =>
              (escScan t4).map (fun p => ((a * 4096 + b * 256 + c2 * 16 + d) :: p.1, p.2))
            | _, _, _, _ => none
          | _ => none
        else
          match simpleEsc e with
          | some d => (escScan t2).map (fun p => (d :: p.1, p.2))
          | none => none
termination_by l => l.length
decreasing_by all_goals simp <;> omega

/-- UTF-8 decoding as a byte-at-a-time state machine: `k` counts pending
continuation bytes and `v` accumulates the partial code point.  Inverse of
utf8Encode on its image. -/
def utf8SM : Nat → Nat → List Nat → Option (List Nat)
  | 0, _, [] => some []
  | _ + 1, _, [] => none
  | 0, _, b :: t =>
    if b < 0x80 then (utf8SM 0 0 t).map (b :: ·)
    else if b < 0xE0 then utf8SM 1 (b - 0xC0) t
    else if b < 0xF0 then utf8SM 2 (b - 0xE0) t
    else utf8SM 3 (b - 0xF0) t
  | 1, v, b :: t => (utf8SM 0 0 t).map ((v * 64 + (b - 0x80)) :: ·)
  | k + 2, v, b :: t => utf8SM (k + 1) (v * 64 + (b - 0x80)) t

/-- UTF-8 decoding of a byte list. -/
def utf8Decode (l : List Nat) : Option (List Nat) := utf8SM 0 0 l

/-- Value of a base64url alphabet character. -/
def b64val (c : Nat) : Option Nat :=
  if 65 ≤ c ∧ c ≤ 90 then some (c - 65)
  else if 97 ≤ c ∧ c ≤ 122 then some (26 + (c - 97))
  else if 48 ≤ c ∧ c ≤ 57 then some (52 + (c - 48))
  else if c = 45 then some 62
  else if c = 95 then some 63
  else none

/-- base64url decoding, the inverse of b64encode on its image. -/
def b64decode : List Nat → Option (List Nat)
  | [] => some []
  | [_] => none
  | [c0, c1] =>
    match b64val c0, b64val c1 with
    | some d0, some d1 => some [d0 * 4 + d1 / 16]
    | _, _ => none
  | [c0, c1, c2] =>
    match b64val c0, b64val c1, b64val c2 with
    | some d0, some d1, some d2 =>
      some [d0 * 4 + d1 / 16, d1 % 16 * 16 + d2 / 4]
    | _, _, _ => none
  | c0 :: c1 :: c2 :: c3 :: rest =>
    match b64val c0, b64val c1, b64val c2, b64val c3, b64decode rest with
    | some d0, some d1, some d2, some d3, some bs =>
      some ((d0 * 4 + d1 / 16) :: (d1 % 16 * 16 + d2 / 4) :: (d2 % 4 * 64 + d3) :: bs)
    | _, _, _, _, _ => none

/-- Is a code point an ASCII decimal digit? -/
def isDigitCode (c : Nat) : Bool := decide (48 ≤ c ∧ c ≤ 57)

/-- Strip an expected literal prefix. -/
def stripPfx : List Nat → List Nat → Option (List Nat)
  | [], l => some l
  | _ :: _, [] => none
  | p :: ps, x :: xs => if x = p then stripPfx ps xs else none

/-- Extract the "sub" value back out of a marshalled payload. -/
def parseSub (l : List Nat) : Option (List Nat) :=
  (stripPfx pfxExp l).bind fun l1 =>
  (stripPfx pfxIat (List.dropWhile isDigitCode l1)).bind fun l3 =>
  (stripPfx pfxNamespace (List.dropWhile isDigitCode l3)).bind fun l5 =>
  (escScan l5).bind fun p =>
  (stripPfx pfxSubKey p.2).bind fun l7 =>
  (escScan l7).bind fun q =>
  if q.2 = [0x7D] then some q.1 else none

/-! ## C1 — the four-branch GetToken algorithm -/

/-- C1: for both networked credential strategies (client-credentials and
password grant), GetToken follows the four-branch algorithm: with no cached
token it synchronously calls Authenticate and returns its result; with an
already-expired cached token it synchronously calls RefreshToken on it and
returns its result; with a cached token expiring within 5 minutes it
returns that token unchanged while spawning a background refresh; otherwise
it returns the cached token unchanged with no background refresh. -/
theorem getToken_four_branch_policy (cenv : ClientNet) (penv : PasswordNet) :
    (clientGetToken cenv none =
      some ⟨(clientAuthenticate cenv none).1, (clientAuthenticate cenv none).2, false⟩) ∧
    (∀ t, t.expiresAt < cenv.now →
      clientGetToken cenv (some t) =
        some ⟨(clientRefreshToken cenv (some t) t).1,
              (clientRefreshToken cenv (some t) t).2, false⟩) ∧
    (∀ t, ¬ t.expiresAt < cenv.now → t.expiresAt - cenv.now < fiveMinutes →
      clientGetToken cenv (some t) = some ⟨.ok t, some t, true⟩) ∧
    (∀ t, ¬ t.expiresAt < cenv.now → ¬ t.expiresAt - cenv.now < fiveMinutes →
      clientGetToken cenv (some t) = some ⟨.ok t, some t, false⟩) ∧
    (passwordGetToken penv none =
      some ⟨(passwordAuthenticate penv none).1, (passwordAuthenticate penv none).2, false⟩) ∧
    (∀ t, t.expiresAt < penv.now →
      passwordGetToken penv (some t) =
        some ⟨(passwordRefreshToken penv (some t) t).1,
              (passwordRefreshToken penv (some t) t).2, false⟩) ∧
    (∀ t, ¬ t.expiresAt < penv.now → t.expiresAt - penv.now < fiveMinutes →
      passwordGetToken penv (some t) = some ⟨.ok t, some t, true⟩) ∧
    (∀ t, ¬ t.expiresAt < penv.now → ¬ t.expiresAt - penv.now < fiveMinutes →
      passwordGetToken penv (some t) = some ⟨.ok t, some t, false⟩) := by
  refine ⟨?_, ?_, ?_, ?_, ?_, ?_, ?_, ?_⟩
  · simp [clientGetToken]
  · intro t h
    simp [clientGetToken, isExpiredP, clientRefreshTokenP, h]
  · intro t h1 h2
    simp [clientGetToken, isExpiredP, expiresInP, h1, h2]
  · intro t h1 h2
    simp [clientGetToken, isExpiredP, expiresInP, h1, h2]
  · simp [passwordGetToken]
  · intro t h
    simp [passwordGetToken, isExpiredP, passwordRefreshTokenP, h]
  · intro t h1 h2
    simp [passwordGetToken, isExpiredP, expiresInP, h1, h2]
  · intro t h1 h2
    simp [passwordGetToken, isExpiredP, expiresInP, h1, h2]

/-- Witness for C1: the branches evaluated at concrete inputs. -/
theorem getToken_four_branch_policy_witness :
    (clientGetToken sampleClientNet (some (sampleToken (-1))) =
      some ⟨(clientRefreshToken sampleClientNet (some (sampleToken (-1))) (sampleToken (-1))).1,
            (clientRefreshToken sampleClientNet (some (sampleToken (-1))) (sampleToken (-1))).2,
            false⟩) ∧
    (clientGetToken sampleClientNet (some (sampleToken 5)) =
      some ⟨.ok (sampleToken 5), some (sampleToken 5), true⟩) ∧
    (clientGetToken sampleClientNet (some (sampleToken (fiveMinutes + 7))) =
      some ⟨.ok (sampleToken (fiveMinutes + 7)), some (sampleToken (fiveMinutes + 7)), false⟩) ∧
    (passwordGetToken samplePasswordNet (some (sampleToken 5)) =
      some ⟨.ok (sampleToken 5), some (sampleToken 5), true⟩) :=
  ⟨(getToken_four_branch_policy sampleClientNet samplePasswordNet).2.1
      (sampleToken (-1)) (by decide),
   (getToken_four_branch_policy sampleClientNet samplePasswordNet).2.2.1
      (sampleToken 5) (by decide) (by decide),
   (getToken_four_branch_policy sampleClientNet samplePasswordNet).2.2.2.1
      (sampleToken (fiveMinutes + 7)) (by decide) (by decide),
   (getToken_four_branch_policy sampleClientNet samplePasswordNet).2.2.2.2.2.2.1
      (sampleToken 5) (by decide) (by decide)⟩

/-! ## C4 — is_expired / is_token_valid -/

/-- C4 counterexample: at the exact expiry instant the stored expiry is at
(hence "at or before") the evaluation time, yet IsExpired reports false,
because the code tests `time.Now().After(expiry)` strictly. -/
theorem isExpired_boundary_counterexample :
    (sampleToken 0).expiresAt ≤ 0 ∧ isExpiredP (some (sampleToken 0)) 0 = false :=
  ⟨by decide, by decide⟩

/-- C4 (amended): IsExpired is true iff the token is nil or its stored
expiry is strictly before the evaluation time; IsTokenValid is true exactly
for non-nil tokens whose expiry is not strictly before the evaluation
time. -/
theorem isExpired_isTokenValid_characterization (t : Option Token) (now : Instant) :
    (isExpiredP t now = true ↔ (t = none ∨ ∃ tok, t = some tok ∧ tok.expiresAt < now)) ∧
    (isTokenValid t now = true ↔ ∃ tok, t = some tok ∧ ¬ tok.expiresAt < now) := by
  cases t with
  | none => simp [isExpiredP, isTokenValid]
  | some tok => simp [isExpiredP, isTokenValid]

/-! ## C10 — nil-safety of the GetToken → RefreshToken path -/

/-- C10: RefreshToken immediately reads the token argument's refresh
credential, so a nil argument dereferences nil (modelled as `none`); but
GetToken routes a nil cached token to Authenticate and only ever calls
RefreshToken with a non-nil token, so GetToken itself never reaches the
nil dereference on either provider. -/
theorem refreshToken_nil_unreachable_via_getToken :
    (∀ cenv cur, clientRefreshTokenP cenv cur none = none) ∧
    (∀ penv cur, passwordRefreshTokenP penv cur none = none) ∧
    (∀ cenv cur, (clientGetToken cenv cur).isSome = true) ∧
    (∀ penv cur, (passwordGetToken penv cur).isSome = true) := by
  refine ⟨fun _ _ => rfl, fun _ _ => rfl, ?_, ?_⟩
  · intro cenv cur
    cases cur with
    | none => simp [clientGetToken]
    | some t =>
      simp only [clientGetToken, clientRefreshTokenP]
      split
      · simp
      · split <;> simp
  · intro penv cur
    cases cur with
    | none => simp [passwordGetToken]
    | some t =>
      simp only [passwordGetToken, passwordRefreshTokenP]
      split
      · simp
      · split <;> simp

/-! ## C5 — refresh falls back to authenticate -/


/-- C5 counterexample: on the client-credentials strategy, a RefreshToken
call whose refresh request fails at the transport level surfaces the error
"refresh request failed: ..." instead of falling back to Authenticate
(whose result here would be a token). -/
theorem refresh_transport_error_counterexample :
    (clientRefreshToken refreshDownNet none (sampleToken 0)).1 =
      .error "refresh request failed: connection refused" ∧
    (clientAuthenticate refreshDownNet none).1.isOk = true ∧
    (sampleToken 0).refreshToken ≠ "" :=
  ⟨rfl, rfl, by decide⟩

/-- C5 (amended): both strategies fall back to a full Authenticate when the
token carries no refresh credential; the password strategy also falls back
whenever its refresh SDK call returns an error; the client-credentials
strategy falls back when the refresh request completes with a non-OK
status, but surfaces a transport-level refresh failure as an error rather
than falling back. -/
theorem refresh_fallback_policy :
    (∀ cenv cur t, t.refreshToken = "" →
      clientRefreshToken cenv cur t = clientAuthenticate cenv cur) ∧
    (∀ penv cur t, t.refreshToken = "" →
      passwordRefreshToken penv cur t = passwordAuthenticate penv cur) ∧
    (∀ (penv : PasswordNet) cur t e, t.refreshToken ≠ "" →
      penv.refreshCall = .sdkError e →
      passwordRefreshToken penv cur t = passwordAuthenticate penv cur) ∧
    (∀ (cenv : ClientNet) cur t status body, t.refreshToken ≠ "" →
      cenv.refreshCall = .response status body → status ≠ 200 →
      clientRefreshToken cenv cur t = clientAuthenticate cenv cur) ∧
    (∀ (cenv : ClientNet) cur t e, t.refreshToken ≠ "" →
      cenv.refreshCall = .transportError e →
      clientRefreshToken cenv cur t = (.error ("refresh request failed: " ++ e), cur)) := by
  refine ⟨?_, ?_, ?_, ?_, ?_⟩
  · intro cenv cur t h
    simp [clientRefreshToken, h]
  · intro penv cur t h
    simp [passwordRefreshToken, h]
  · intro penv cur t e h hc
    simp [passwordRefreshToken, h, hc]
  · intro cenv cur t status body h hc hs
    simp [clientRefreshToken, h, hc, hs]
  · intro cenv cur t e h hc
    simp [clientRefreshToken, h, hc]

/-- Witness for C5 (amended), at concrete inputs. -/
theorem refresh_fallback_policy_witness :
    (clientRefreshToken sampleClientNet none
        { accessToken := "a", tokenType := "Bearer", expiresAt := 0, refreshToken := "" } =
      clientAuthenticate sampleClientNet none) ∧
    (clientRefreshToken refreshDownNet none (sampleToken 0) =
      (.error ("refresh request failed: " ++ "connection refused"), none)) :=
  ⟨(refresh_fallback_policy).1 sampleClientNet none _ rfl,
   (refresh_fallback_policy).2.2.2.2 refreshDownNet none (sampleToken 0)
      "connection refused" (by decide) rfl⟩

/-! ## C6 — validation of the identity provider's token response -/


/-- C6 counterexample: the client-credentials Authenticate performs no
required-field validation — an HTTP 200 whose JSON body is missing the
access token, token type and expiry still yields a token (with Go
zero-valued fields), not an error. -/
theorem client_authenticate_no_validation_counterexample :
    (clientAuthenticate emptyFieldsNet none).1.isOk = true := rfl

/-- C6 (amended): only the password-grant strategy validates the token
response: when any of access token / token type / expiry is absent from
the payload its Authenticate fails with the configuration error
"invalid token response: missing required fields" and stores no token,
while the client-credentials strategy builds a token out of whatever
(zero-defaulted) fields the 200 response decoded to. -/
theorem password_missing_fields_validation :
    (∀ (penv : PasswordNet) cur resp,
      penv.authCall = .success (some (some resp)) →
      (resp.accessToken = none ∨ resp.tokenType = none ∨ resp.expiresIn = none) →
      passwordAuthenticate penv cur =
        (.error "invalid token response: missing required fields", cur)) ∧
    (∀ (cenv : ClientNet) cur raw,
      cenv.authCall = .response 200 (.ok raw) →
      (clientAuthenticate cenv cur).1.isOk = true) := by
  constructor
  · intro penv cur resp hc hmiss
    rcases hmiss with h | h | h <;>
      · simp only [passwordAuthenticate, hc]
        cases ha : resp.accessToken <;> cases ht : resp.tokenType <;>
          cases he : resp.expiresIn <;> simp_all
  · intro cenv cur raw hc
    simp [clientAuthenticate, hc, Except.isOk, Except.toBool]

/-- Witness for C6 (amended), at concrete inputs. -/
theorem password_missing_fields_validation_witness :
    (passwordAuthenticate
        { authCall := .success (some (some { accessToken := none
                                             tokenType := some "Bearer"
                                             expiresIn := some 3600
                                             refreshToken := "r" }))
          refreshCall := .sdkError "unused", now := 0 } none =
      (.error "invalid token response: missing required fields", none)) ∧
    (clientAuthenticate emptyFieldsNet none).1.isOk = true :=
  ⟨(password_missing_fields_validation).1 _ none _ rfl (Or.inl rfl),
   (password_missing_fields_validation).2 emptyFieldsNet none _ rfl⟩

/-! ## C8 — pre-flight failures never enter the retry loop -/

/-- C8: a body-serialization error or a GetToken error fails the doRequest
call immediately with that error: the sleep/attempt list is empty, so no
HTTP attempt is made and the retry loop is never entered. -/
theorem doRequest_preflight_failures (env : RequestEnv) :
    (∀ e, env.marshalBody = some (.error e) →
      doRequest env = (.error ("marshal request body: " ++ e), [])) ∧
    (∀ e, (env.marshalBody = none ∨ ∃ s, env.marshalBody = some (.ok s)) →
      env.tokenResult = .error e →
      doRequest env = (.error ("get auth token: " ++ e), [])) := by
  constructor
  · intro e h
    simp [doRequest, h]
  · intro e hm ht
    rcases hm with h | ⟨s, h⟩ <;> simp [doRequest, h, ht]

/-- Witness for C8, at concrete inputs. -/
theorem doRequest_preflight_failures_witness :
    (doRequest { marshalBody := some (.error "cyclic value")
                 tokenResult := .ok (sampleToken 0)
                 attempts := fun _ => .response 200 "ok" } =
      (.error ("marshal request body: " ++ "cyclic value"), [])) ∧
    (doRequest { marshalBody := none
                 tokenResult := .error "no credentials"
                 attempts := fun _ => .response 200 "ok" } =
      (.error ("get auth token: " ++ "no credentials"), [])) :=
  ⟨(doRequest_preflight_failures _).1 "cyclic value" rfl,
   (doRequest_preflight_failures _).2 "no credentials" (Or.inl rfl) rfl⟩

/-! ## Retry-loop lemmas (shared by C2 and C3) -/

lemma retryLoop_zero (f : Nat → AttemptOutcome) (total : Nat) (lastE : String) :
    retryLoop f total 0 lastE =
      (.error ("request failed after " ++ toString total ++ " attempts: " ++ lastE), []) :=
  rfl

lemma retryLoop_succ_retry (f : Nat → AttemptOutcome) (total r : Nat) (lastE : String)
    (h : isRetryable (f (total - (r + 1))) = true) :
    retryLoop f total (r + 1) lastE =
      ((retryLoop f total r (causeMsg (f (total - (r + 1))))).1,
       (if total - (r + 1) = 0 then 0 else 2 ^ (total - (r + 1) - 1)) ::
         (retryLoop f total r (causeMsg (f (total - (r + 1))))).2) := by
  cases hf : f (total - (r + 1)) with
  | transportError e => simp [retryLoop, hf, causeMsg]
  | response st b =>
    have hs : st ≥ 500 := by
      have h2 := h
      rw [hf] at h2
      simpa [isRetryable] using h2
    simp [retryLoop, hf, causeMsg, hs]

lemma retryLoop_succ_stop (f : Nat → AttemptOutcome) (total r : Nat) (lastE : String)
    (s : Nat) (b : String) (hf : f (total - (r + 1)) = .response s b) (hs : s < 500) :
    retryLoop f total (r + 1) lastE =
      (.ok (s, b), [if total - (r + 1) = 0 then 0 else 2 ^ (total - (r + 1) - 1)]) := by
  have hns : ¬ s ≥ 500 := by omega
  simp [retryLoop, hf, hns]

lemma not_retryable_response (o : AttemptOutcome) (h : ¬ isRetryable o = true) :
    ∃ s b, o = .response s b ∧ s < 500 := by
  cases o with
  | transportError e => simp [isRetryable] at h
  | response s b =>
    refine ⟨s, b, rfl, ?_⟩
    simp [isRetryable] at h
    omega

lemma errMsg3 (l : String) :
    ("request failed after " ++ toString (3 : Nat) ++ " attempts: " ++ l) =
      "request failed after 3 attempts: " ++ l := by
  have h : ("request failed after " ++ toString (3 : Nat) ++ " attempts: " : String) =
      "request failed after 3 attempts: " := by decide
  calc ("request failed after " ++ toString (3 : Nat) ++ " attempts: " ++ l)
      = ("request failed after " ++ toString (3 : Nat) ++ " attempts: ") ++ l := by
        simp [String.append_assoc]
    _ = "request failed after 3 attempts: " ++ l := by rw [h]

lemma retryLoop3_stop0 (f : Nat → AttemptOutcome) (s : Nat) (b : String)
    (hf : f 0 = .response s b) (hs : s < 500) :
    retryLoop f 3 3 "" = (.ok (s, b), [0]) := by
  have e := retryLoop_succ_stop f 3 2 "" s b (by norm_num; exact hf) hs
  norm_num at e
  exact e

lemma retryLoop3_stop1 (f : Nat → AttemptOutcome) (s : Nat) (b : String)
    (h0 : isRetryable (f 0) = true)
    (hf : f 1 = .response s b) (hs : s < 500) :
    retryLoop f 3 3 "" = (.ok (s, b), [0, 1]) := by
  have e3 := retryLoop_succ_retry f 3 2 "" (by norm_num; exact h0)
  have e2 := retryLoop_succ_stop f 3 1 (causeMsg (f 0)) s b (by norm_num; exact hf) hs
  norm_num at e3 e2
  rw [e3, e2]

lemma retryLoop3_stop2 (f : Nat → AttemptOutcome) (s : Nat) (b : String)
    (h0 : isRetryable (f 0) = true) (h1 : isRetryable (f 1) = true)
    (hf : f 2 = .response s b) (hs : s < 500) :
    retryLoop f 3 3 "" = (.ok (s, b), [0, 1, 2]) := by
  have e3 := retryLoop_succ_retry f 3 2 "" (by norm_num; exact h0)
  have e2 := retryLoop_succ_retry f 3 1 (causeMsg (f 0)) (by norm_num; exact h1)
  have e1 := retryLoop_succ_stop f 3 0 (causeMsg (f 1)) s b (by norm_num; exact hf) hs
  norm_num at e3 e2 e1
  rw [e3, e2, e1]

lemma retryLoop3_exhaust (f : Nat → AttemptOutcome)
    (h : ∀ i, i < 3 → isRetryable (f i) = true) :
    retryLoop f 3 3 "" =
      (.error ("request failed after 3 attempts: " ++ causeMsg (f 2)), [0, 1, 2]) := by
  have e3 := retryLoop_succ_retry f 3 2 "" (by norm_num; exact h 0 (by norm_num))
  have e2 := retryLoop_succ_retry f 3 1 (causeMsg (f 0)) (by norm_num; exact h 1 (by norm_num))
  have e1 := retryLoop_succ_retry f 3 0 (causeMsg (f 1)) (by norm_num; exact h 2 (by norm_num))
  have e0 := retryLoop_zero f 3 (causeMsg (f 2))
  norm_num at e3 e2 e1
  rw [e3, e2, e1, e0, errMsg3]

/-! ## C2 — failure classification of the retry loop -/

/-- C2: in the retry loop, a transport error or an HTTP status ≥ 500 is
retryable; an attempt whose status lies in 200–499, reached after only
retryable attempts, terminates the loop immediately with that response
returned as-is, having made exactly k+1 attempts (the sleep list is
List.take (k+1) [0,1,2], one entry per attempt); in particular a 404 on
the first attempt gives exactly 1 attempt.  When every attempt is
retryable the whole call fails. -/
theorem retry_classification (f : Nat → AttemptOutcome) :
    (∀ k s b, k < maxRetries → (∀ i, i < k → isRetryable (f i) = true) →
      f k = .response s b → 200 ≤ s → s ≤ 499 →
      retryLoop f maxRetries maxRetries "" = (.ok (s, b), List.take (k + 1) [0, 1, 2])) ∧
    ((∀ i, i < maxRetries → isRetryable (f i) = true) →
      (retryLoop f maxRetries maxRetries "").1 =
        .error ("request failed after 3 attempts: " ++ causeMsg (f 2))) := by
  constructor
  · intro k s b hk hearlier hf h200 h499
    have hs : s < 500 := by omega
    simp only [maxRetries] at hk ⊢
    interval_cases k
    · rw [retryLoop3_stop0 f s b hf hs]
      simp
    · rw [retryLoop3_stop1 f s b (hearlier 0 (by norm_num)) hf hs]
      simp
    · rw [retryLoop3_stop2 f s b (hearlier 0 (by norm_num)) (hearlier 1 (by norm_num)) hf hs]
      simp
  · intro h
    simp only [maxRetries] at h ⊢
    rw [retryLoop3_exhaust f h]

/-- Witness for C2: a server always answering 404 terminates after exactly
one attempt with the 404 returned; a server always failing at the
transport level exhausts the retries. -/
theorem retry_classification_witness :
    retryLoop (fun _ => .response 404 "not found") maxRetries maxRetries "" =
      (.ok (404, "not found"), List.take 1 [0, 1, 2]) ∧
    (retryLoop (fun _ => .transportError "conn reset") maxRetries maxRetries "").1 =
      .error ("request failed after 3 attempts: " ++
        causeMsg ((fun _ => AttemptOutcome.transportError "conn reset") 2)) :=
  ⟨(retry_classification (fun _ => .response 404 "not found")).1 0 404 "not found"
      (by decide) (fun i hi => absurd hi (Nat.not_lt_zero i)) rfl (by decide) (by decide),
   (retry_classification (fun _ => .transportError "conn reset")).2
      (fun _ _ => rfl)⟩

/-! ## C3 — retry bound, backoff schedule, exhaustion error -/

/-- C3: the retry loop makes at most 3 attempts; the backoff slept before
the 1st/2nd/3rd attempts is 0s/1s/2s (the sleep list is always a prefix of
[0, 1, 2]); and when all three attempts fail transiently the call fails
with "request failed after 3 attempts" wrapping the last transient
cause. -/
theorem retry_bound_backoff_exhaustion (f : Nat → AttemptOutcome) :
    ((retryLoop f maxRetries maxRetries "").2.length ≤ 3) ∧
    ((retryLoop f maxRetries maxRetries "").2 =
      List.take (retryLoop f maxRetries maxRetries "").2.length [0, 1, 2]) ∧
    ((∀ i, i < maxRetries → isRetryable (f i) = true) →
      (retryLoop f maxRetries maxRetries "").1 =
        .error ("request failed after 3 attempts: " ++ causeMsg (f 2))) := by
  simp only [maxRetries]
  by_cases h0 : isRetryable (f 0) = true
  · by_cases h1 : isRetryable (f 1) = true
    · by_cases h2 : isRetryable (f 2) = true
      · rw [retryLoop3_exhaust f (by intro i hi; interval_cases i <;> assumption)]
        exact ⟨by simp, by simp, fun _ => rfl⟩
      · obtain ⟨s, b, hf, hs⟩ := not_retryable_response (f 2) h2
        rw [retryLoop3_stop2 f s b h0 h1 hf hs]
        exact ⟨by simp, by simp, fun hall => absurd (hall 2 (by norm_num)) h2⟩
    · obtain ⟨s, b, hf, hs⟩ := not_retryable_response (f 1) h1
      rw [retryLoop3_stop1 f s b h0 hf hs]
      exact ⟨by simp, by simp, fun hall => absurd (hall 1 (by norm_num)) h1⟩
  · obtain ⟨s, b, hf, hs⟩ := not_retryable_response (f 0) h0
    rw [retryLoop3_stop0 f s b hf hs]
    exact ⟨by simp, by simp, fun hall => absurd (hall 0 (by norm_num)) h0⟩

/-- Witness for C3: the exhaustion clause evaluated on a server that
always returns 500. -/
theorem retry_bound_backoff_exhaustion_witness :
    (retryLoop (fun _ => .response 500 "oops") maxRetries maxRetries "").1 =
      .error ("request failed after 3 attempts: " ++
        causeMsg ((fun _ => AttemptOutcome.response 500 "oops") 2)) :=
  (retry_bound_backoff_exhaustion (fun _ => .response 500 "oops")).2.2
    (fun _ _ => rfl)


/-! ### Digit, prefix and dropWhile lemmas -/

lemma toDecAux_digits (n : Nat) (acc : List Nat)
    (hacc : ∀ x ∈ acc, isDigitCode x = true) :
    ∀ x ∈ toDecAux n acc, isDigitCode x = true := by
  induction n using Nat.strong_induction_on generalizing acc with
  | _ n ih =>
    rw [toDecAux]
    split
    · intro x hx
      rcases List.mem_cons.mp hx with rfl | hx
      · simp only [isDigitCode, decide_eq_true_eq]
        omega
      · exact hacc x hx
    · next hn =>
      refine ih (n / 10) (by omega) _ ?_
      intro x hx
      rcases List.mem_cons.mp hx with rfl | hx
      · simp only [isDigitCode, decide_eq_true_eq]
        omega
      · exact hacc x hx

lemma toDec_digits (n : Nat) : ∀ x ∈ toDec n, isDigitCode x = true :=
  toDecAux_digits n [] (by simp)

lemma dropWhile_digits_append (l1 l2 : List Nat)
    (h : ∀ x ∈ l1, isDigitCode x = true) :
    List.dropWhile isDigitCode (l1 ++ l2) = List.dropWhile isDigitCode l2 := by
  induction l1 with
  | nil => simp
  | cons x xs ih =>
    have hx := h x (by simp)
    simp [List.dropWhile_cons, hx, ih (fun y hy => h y (by simp [hy]))]

lemma stripPfx_append (p l : List Nat) : stripPfx p (p ++ l) = some l := by
  induction p with
  | nil => simp [stripPfx]
  | cons x xs ih => simp [stripPfx, ih]

lemma dropWhile_pfxIat (X : List Nat) :
    List.dropWhile isDigitCode (pfxIat ++ X) = pfxIat ++ X := by
  have h : isDigitCode 0x2C = false := by decide
  simp [pfxIat, List.dropWhile_cons, h]

lemma dropWhile_pfxNamespace (X : List Nat) :
    List.dropWhile isDigitCode (pfxNamespace ++ X) = pfxNamespace ++ X := by
  have h : isDigitCode 0x2C = false := by decide
  simp [pfxNamespace, List.dropWhile_cons, h]

/-! ### Escape-scanning lemmas -/

lemma hexVal_hexDig (n : Nat) (h : n < 16) : hexVal (hexDig n) = some n := by
  interval_cases n <;> decide

lemma escScan_cons (c : Nat) (T s r : List Nat) (h : escScan T = some (s, r)) :
    escScan (escRune c ++ T) = some (c :: s, r) := by
  unfold escRune
  by_cases h80 : c < 0x80
  · simp only [if_pos h80]
    by_cases hsafe : 0x20 ≤ c ∧ c ≠ 0x22 ∧ c ≠ 0x5C ∧ c ≠ 0x3C ∧ c ≠ 0x3E ∧ c ≠ 0x26
    · simp only [if_pos hsafe]
      obtain ⟨-, h22, h5c, -, -, -⟩ := hsafe
      rw [escScan.eq_def]
      simp [h22, h5c, h]
    · simp only [if_neg hsafe]
      by_cases hqb : c = 0x22 ∨ c = 0x5C
      · simp only [if_pos hqb]
        rcases hqb with rfl | rfl <;> (rw [escScan.eq_def]; simp [simpleEsc, h])
      · simp only [if_neg hqb]
        by_cases hn : c = 0x0A
        · subst hn
          rw [escScan.eq_def]
          simp [simpleEsc, h]
        · simp only [if_neg hn]
          by_cases hcr : c = 0x0D
          · subst hcr
            rw [escScan.eq_def]
            simp [simpleEsc, h]
          · simp only [if_neg hcr]
            by_cases htb : c = 0x09
            · subst htb
              rw [escScan.eq_def]
              simp [simpleEsc, h]
            · simp only [if_neg htb]
              have h1 : hexVal (hexDig (c / 16)) = some (c / 16) :=
                hexVal_hexDig _ (by omega)
              have h2 : hexVal (hexDig (c % 16)) = some (c % 16) :=
                hexVal_hexDig _ (by omega)
              have hval : c / 16 * 16 + c % 16 = c := by omega
              have h0 : hexVal 0x30 = some 0 := by decide
              rw [escScan.eq_def]
              simp [h0, h1, h2, h, hval]
  · simp only [if_neg h80]
    by_cases h2829 : c = 0x2028 ∨ c = 0x2029
    · simp only [if_pos h2829]
      rcases h2829 with rfl | rfl <;> (rw [escScan.eq_def]; simp [hexVal, hexDig, h])
    · simp only [if_neg h2829]
      have h22 : c ≠ 0x22 := by omega
      have h5c : c ≠ 0x5C := by omega
      rw [escScan.eq_def]
      simp [h22, h5c, h]

lemma escScan_escape (ns rest : List Nat) :
    escScan (escape ns ++ 0x22 :: rest) = some (ns, rest) := by
  induction ns with
  | nil =>
    rw [escape, escScan.eq_def]
    simp
  | cons c cs ih =>
    have step := escScan_cons c (escape cs ++ 0x22 :: rest) cs rest ih
    simpa [escape, List.append_assoc] using step

/-! ### parseSub inverts the payload construction -/

lemma parseSub_payload (u ns : List Nat) (iat exp : Nat) :
    parseSub (payloadRunes u ns iat exp) = some u := by
  have hshape : payloadRunes u ns iat exp =
      pfxExp ++ (toDec exp ++ (pfxIat ++ (toDec iat ++ (pfxNamespace ++
        (escape ns ++ (0x22 :: (pfxSubKey ++ (escape u ++ (0x22 :: [0x7D]))))))))) := by
    simp [payloadRunes, List.append_assoc]
  have e1 : stripPfx pfxExp (payloadRunes u ns iat exp) =
      some (toDec exp ++ (pfxIat ++ (toDec iat ++ (pfxNamespace ++
        (escape ns ++ (0x22 :: (pfxSubKey ++ (escape u ++ (0x22 :: [0x7D]))))))))) := by
    rw [hshape, stripPfx_append]
  have e2 : List.dropWhile isDigitCode
      (toDec exp ++ (pfxIat ++ (toDec iat ++ (pfxNamespace ++
        (escape ns ++ (0x22 :: (pfxSubKey ++ (escape u ++ (0x22 :: [0x7D]))))))))) =
      pfxIat ++ (toDec iat ++ (pfxNamespace ++
        (escape ns ++ (0x22 :: (pfxSubKey ++ (escape u ++ (0x22 :: [0x7D]))))))) := by
    rw [dropWhile_digits_append _ _ (toDec_digits exp), dropWhile_pfxIat]
  have e3 : List.dropWhile isDigitCode
      (toDec iat ++ (pfxNamespace ++
        (escape ns ++ (0x22 :: (pfxSubKey ++ (escape u ++ (0x22 :: [0x7D]))))))) =
      pfxNamespace ++
        (escape ns ++ (0x22 :: (pfxSubKey ++ (escape u ++ (0x22 :: [0x7D]))))) := by
    rw [dropWhile_digits_append _ _ (toDec_digits iat), dropWhile_pfxNamespace]
  have e4 : escScan (escape ns ++ 0x22 :: (pfxSubKey ++ (escape u ++ (0x22 :: [0x7D])))) =
      some (ns, pfxSubKey ++ (escape u ++ (0x22 :: [0x7D]))) := escScan_escape _ _
  have e5 : escScan (escape u ++ 0x22 :: [0x7D]) = some (u, [0x7D]) := escScan_escape _ _
  rw [parseSub, e1, Option.some_bind, e2, stripPfx_append, Option.some_bind,
      e3, stripPfx_append, Option.some_bind, e4, Option.some_bind,
      stripPfx_append, Option.some_bind, e5, Option.some_bind]
  simp

/-! ### UTF-8 roundtrip and byte bounds -/

lemma utf8Decode_encodeChar (c : Nat) (t : List Nat) :
    utf8Decode (utf8EncodeChar c ++ t) = (utf8Decode t).map (c :: ·) := by
  unfold utf8Decode utf8EncodeChar
  by_cases h1 : c < 0x80
  · simp only [if_pos h1, List.cons_append, List.nil_append]
    simp [utf8SM, h1]
  · simp only [if_neg h1]
    by_cases h2 : c < 0x800
    · simp only [if_pos h2, List.cons_append, List.nil_append]
      have ha : ¬ 0xC0 + c / 64 < 0x80 := by omega
      have hb : 0xC0 + c / 64 < 0xE0 := by omega
      have hval : c / 64 * 64 + c % 64 = c := by omega
      simp [utf8SM, ha, hb]
      simp only [hval]
    · simp only [if_neg h2]
      by_cases h3 : c < 0x10000
      · simp only [if_pos h3, List.cons_append, List.nil_append]
        have ha : ¬ 0xE0 + c / 4096 < 0x80 := by omega
        have hb : ¬ 0xE0 + c / 4096 < 0xE0 := by omega
        have hc : 0xE0 + c / 4096 < 0xF0 := by omega
        have hval : (c / 4096 * 64 + c / 64 % 64) * 64 + c % 64 = c := by omega
        simp [utf8SM, ha, hb, hc]
        simp only [hval]
      · simp only [if_neg h3, List.cons_append, List.nil_append]
        have ha : ¬ 0xF0 + c / 262144 < 0x80 := by omega
        have hb : ¬ 0xF0 + c / 262144 < 0xE0 := by omega
        have hc : ¬ 0xF0 + c / 262144 < 0xF0 := by omega
        have hval : ((c / 262144 * 64 + c / 4096 % 64) * 64 + c / 64 % 64) * 64 + c % 64 = c := by
          omega
        simp [utf8SM, ha, hb, hc]
        simp only [hval]

lemma utf8_roundtrip (s : List Nat) : utf8Decode (utf8Encode s) = some s := by
  induction s with
  | nil => rfl
  | cons c cs ih =>
    rw [utf8Encode, utf8Decode_encodeChar, ih]
    rfl

lemma utf8EncodeChar_lt256 (c : Nat) (h : c < 0x110000) :
    ∀ b ∈ utf8EncodeChar c, b < 256 := by
  unfold utf8EncodeChar
  split_ifs <;> (intro b hb; simp at hb; omega)

lemma utf8Encode_lt256 (s : List Nat) (h : ∀ c ∈ s, c < 0x110000) :
    ∀ b ∈ utf8Encode s, b < 256 := by
  induction s with
  | nil => simp [utf8Encode]
  | cons c cs ih =>
    intro b hb
    rw [utf8Encode] at hb
    rcases List.mem_append.mp hb with hb | hb
    · exact utf8EncodeChar_lt256 c (h c (by simp)) b hb
    · exact ih (fun x hx => h x (by simp [hx])) b hb

/-! ### base64url roundtrip -/

lemma b64val_b64char (n : Nat) (h : n < 64) : b64val (b64char n) = some n := by
  interval_cases n <;> decide

lemma b64_roundtrip (l : List Nat) (h : ∀ b ∈ l, b < 256) :
    b64decode (b64encode l) = some l := by
  induction l using b64encode.induct with
  | case1 b0 b1 b2 rest ih =>
    have hb0 : b0 < 256 := h b0 (by simp)
    have hb1 : b1 < 256 := h b1 (by simp)
    have hb2 : b2 < 256 := h b2 (by simp)
    have ihr := ih (fun x hx => h x (by simp [hx]))
    rw [b64encode, b64decode]
    rw [b64val_b64char _ (by omega), b64val_b64char _ (by omega),
        b64val_b64char _ (by omega), b64val_b64char _ (by omega), ihr]
    simp only [Option.some.injEq, List.cons.injEq]
    refine ⟨by omega, by omega, by omega, trivial⟩
  | case2 b0 b1 =>
    have hb0 : b0 < 256 := h b0 (by simp)
    have hb1 : b1 < 256 := h b1 (by simp)
    rw [b64encode, b64decode]
    rw [b64val_b64char _ (by omega), b64val_b64char _ (by omega),
        b64val_b64char _ (by omega)]
    simp only [Option.some.injEq, List.cons.injEq]
    refine ⟨by omega, by omega, trivial⟩
  | case3 b0 =>
    have hb0 : b0 < 256 := h b0 (by simp)
    rw [b64encode, b64decode]
    rw [b64val_b64char _ (by omega), b64val_b64char _ (by omega)]
    simp only [Option.some.injEq, List.cons.injEq]
    refine ⟨by omega, trivial⟩
  | case4 => rfl

/-! ### Code-point bounds for the payload -/

lemma hexDig_le (n : Nat) : hexDig n ≤ n + 87 := by
  unfold hexDig
  split <;> omega

lemma escRune_valid (c : Nat) (h : c < 0x110000) :
    ∀ x ∈ escRune c, x < 0x110000 := by
  unfold escRune
  intro x hx
  split_ifs at hx with h1 h2 h3 h4 h5 h6 h7
  · simp at hx
    omega
  · simp at hx
    rcases hx with rfl | rfl <;> omega
  · simp at hx
    rcases hx with rfl | rfl <;> omega
  · simp at hx
    rcases hx with rfl | rfl <;> omega
  · simp at hx
    rcases hx with rfl | rfl <;> omega
  · simp at hx
    have q1 := hexDig_le (c / 16)
    have q2 := hexDig_le (c % 16)
    rcases hx with rfl | rfl | rfl | rfl | rfl | rfl <;> omega
  · simp at hx
    have q := hexDig_le (c % 16)
    rcases hx with rfl | rfl | rfl | rfl | rfl | rfl <;> omega
  · simp at hx
    omega

lemma escape_valid (s : List Nat) (h : ∀ c ∈ s, c < 0x110000) :
    ∀ x ∈ escape s, x < 0x110000 := by
  induction s with
  | nil => simp [escape]
  | cons c cs ih =>
    intro x hx
    rw [escape] at hx
    rcases List.mem_append.mp hx with hx | hx
    · exact escRune_valid c (h c (by simp)) x hx
    · exact ih (fun y hy => h y (by simp [hy])) x hx

lemma toDec_valid (n : Nat) : ∀ x ∈ toDec n, x < 0x110000 := by
  intro x hx
  have := toDec_digits n x hx
  simp only [isDigitCode, decide_eq_true_eq] at this
  omega

lemma payload_valid (u ns : List Nat) (iat exp : Nat)
    (hu : ∀ c ∈ u, c < 0x110000) (hns : ∀ c ∈ ns, c < 0x110000) :
    ∀ c ∈ payloadRunes u ns iat exp, c < 0x110000 := by
  intro c hc
  simp only [payloadRunes, List.append_assoc, List.mem_append] at hc
  rcases hc with hc | hc | hc | hc | hc | hc | hc | hc | hc | hc
  · revert hc
    simp [pfxExp]
    omega
  · exact toDec_valid exp c hc
  · revert hc
    simp [pfxIat]
    omega
  · exact toDec_valid iat c hc
  · revert hc
    simp [pfxNamespace]
    omega
  · exact escape_valid ns hns c hc
  · revert hc
    simp
    omega
  · revert hc
    simp [pfxSubKey]
    omega
  · exact escape_valid u hu c hc
  · revert hc
    simp
    omega

/-! ### C7 — injectivity of the mock token generator in the user ID -/

/-- C7: the mock JWT generator is injective in the user identifier: two
mock strategies configured with distinct user IDs (any namespaces, any
iat/exp instants) never synthesize equal access-token strings.  User IDs
and namespaces are rune lists whose code points are below 0x110000, as Go
strings decode to. -/
theorem generateMockJWT_injective_userID
    (u1 ns1 u2 ns2 : List Nat) (iat1 exp1 iat2 exp2 : Nat)
    (hu1 : ∀ c ∈ u1, c < 0x110000) (hns1 : ∀ c ∈ ns1, c < 0x110000)
    (hu2 : ∀ c ∈ u2, c < 0x110000) (hns2 : ∀ c ∈ ns2, c < 0x110000)
    (hne : u1 ≠ u2) :
    generateMockJWT u1 ns1 iat1 exp1 ≠ generateMockJWT u2 ns2 iat2 exp2 := by
  intro heq
  apply hne
  have h0 := heq
  simp only [generateMockJWT, List.append_assoc] at h0
  have h1 := List.append_cancel_left (List.append_cancel_left h0)
  have h2 := List.append_cancel_right h1
  have h3 : utf8Encode (payloadRunes u1 ns1 iat1 exp1) =
      utf8Encode (payloadRunes u2 ns2 iat2 exp2) := by
    have d := congrArg b64decode h2
    rw [b64_roundtrip _ (utf8Encode_lt256 _ (payload_valid u1 ns1 iat1 exp1 hu1 hns1)),
        b64_roundtrip _ (utf8Encode_lt256 _ (payload_valid u2 ns2 iat2 exp2 hu2 hns2))] at d
    exact Option.some.inj d
  have h4 : payloadRunes u1 ns1 iat1 exp1 = payloadRunes u2 ns2 iat2 exp2 := by
    have d := congrArg utf8Decode h3
    rw [utf8_roundtrip, utf8_roundtrip] at d
    exact Option.some.inj d
  have h5 := congrArg parseSub h4
  rw [parseSub_payload, parseSub_payload] at h5
  exact Option.some.inj h5

/-- Witness for C7: the generator evaluated for users "alice" and "bob"
(namespace "demo") yields different token strings. -/
theorem generateMockJWT_injective_userID_witness :
    generateMockJWT [97, 108, 105, 99, 101] [100, 101, 109, 111] 1700000000 1700003600 ≠
      generateMockJWT [98, 111, 98] [100, 101, 109, 111] 1700000000 1700003600 :=
  generateMockJWT_injective_userID
    [97, 108, 105, 99, 101] [100, 101, 109, 111] [98, 111, 98] [100, 101, 109, 111]
    1700000000 1700003600 1700000000 1700003600
    (by decide) (by decide) (by decide) (by decide) (by decide)

end ChallengeDemo
